import Mathlib

/-!
Shallow embedding of the tenable-one-toolkit repository
(`src/main.py`, `src/modules/helper.py`).

Pure data-reshaping logic is translated into executable Lean
definitions; side effects (printing, `sys.exit`, mutation of the
caller's dataframe, exceptions from the vendor SDK) are made explicit
in return types and extra inputs.
-/

namespace TenableToolkit

/-- A cell of the asset dataframe: a number, a string, or a missing
value (pandas `NaN` / Python `None`). Scores in this tool are whole
numbers, so numbers are modelled as `Int`. -/
inductive Value where
  | num (x : Int)
  | str (s : String)
  | null
deriving DecidableEq, Repr

/-- Accumulates decimal digits; fails on the first non-digit
character. -/
def digitsToNatAux : List Char → Nat → Option Nat
  | [], acc => some acc
  | c :: cs, acc =>
      if c.isDigit then digitsToNatAux cs (acc * 10 + (c.toNat - '0'.toNat))
      else none

/-- Models `pd.to_numeric` on a string for (optionally negated)
decimal integer literals: returns the parsed value, or `none` for a
string that is not numeric. -/
def parseNumeric (s : String) : Option Int :=
  match s.data with
  | [] => none
  | '-' :: rest =>
      match rest with
      | [] => none
      | _ => (digitsToNatAux rest 0).map (fun n => -(n : Int))
  | cs => (digitsToNatAux cs 0).map (fun n => (n : Int))

/-- `pd.to_numeric(..., errors='coerce').fillna(0)` applied to a single
cell, viewed as the resulting number: numbers pass through, numeric
strings parse, anything else (non-numeric string, missing value)
becomes 0 (`helper.py` line 389). -/
def coerceScore : Value → Int
  | .num x => x
  | .str s => (parseNumeric s).getD 0
  | .null => 0

/-- Same coercion returning a cell. -/
def coerceValue (v : Value) : Value := .num (coerceScore v)

/-- A dataframe row as ordered (column, cell) pairs. -/
abbrev Row := List (String × Value)

/-- Row-oriented model of the pandas dataframe holding exported
assets. -/
structure DataFrame where
  colNames : List String
  rows : List Row
deriving DecidableEq, Repr

/-- `df.empty`: true when either axis has length zero. -/
def DataFrame.isEmpty (df : DataFrame) : Bool :=
  df.rows.isEmpty || df.colNames.isEmpty

/-- First cell stored under column `c` in row `r` (`row[c]`). -/
def lookupVal : Row → String → Option Value
  | [], _ => none
  | (k, v) :: rest, c => if k = c then some v else lookupVal rest c

/-- The column `c` of a dataframe, one optional cell per row. -/
def colValues (df : DataFrame) (c : String) : List (Option Value) :=
  df.rows.map (fun r => lookupVal r c)

/-- `df['exposure_score'] = pd.to_numeric(df['exposure_score'],
errors='coerce').fillna(0)` on a single row: the exposure cell is
coerced, every other cell untouched. -/
def coerceRow : Row → Row
  | [] => []
  | (k, v) :: rest =>
      (if k = "exposure_score" then (k, coerceValue v) else (k, v)) :: coerceRow rest

/-- The dataframe after the in-place column assignment of
`helper.py` line 389. -/
def coerceDf (df : DataFrame) : DataFrame :=
  ⟨df.colNames, df.rows.map coerceRow⟩

/-- Sort key of a row: its (already coerced) exposure score. -/
def rowScore (r : Row) : Int :=
  match lookupVal r "exposure_score" with
  | some v => coerceScore v
  | none => 0

/-- Stable insertion of a row into an ascending-by-score list: the new
row goes after every earlier row of equal or smaller score. -/
def insertAsc (x : Row) : List Row → List Row
  | [] => [x]
  | y :: ys => if rowScore x < rowScore y then x :: y :: ys else y :: insertAsc x ys

/-- Stable ascending sort by score (left-to-right insertion sort). -/
def isortAsc (l : List Row) : List Row :=
  l.foldl (fun acc x => insertAsc x acc) []

/-- Models `df.sort_values(by='exposure_score', ascending=False)` as
pandas `nargsort` computes it for a descending sort: reverse the
values, take a stable ascending argsort, and reverse the resulting
order. This is exact whenever the underlying numpy argsort is stable
(numpy runs a stable insertion sort below its introsort cutoff); the
default `kind='quicksort'` gives no stability guarantee on larger
frames, which is why tie order on large frames is left unverified. -/
def sortValuesDesc (l : List Row) : List Row :=
  (isortAsc l.reverse).reverse

/-- What `get_top_exposed_assets` did besides mutating the frame:
`noData` is the early return printing "No data available for
analysis." (`df` is `None` or empty), `missingCol` is the early return
printing "Warning: 'exposure_score' (AES) field not found." and
`ranked` carries the rows of `df.sort_values(...).head(top_n)` that
the final loop prints. -/
inductive TopOutcome where
  | noData
  | missingCol
  | ranked (top : List Row)
deriving DecidableEq, Repr

/-- `get_top_exposed_assets(df, top_n)` (`helper.py` lines 369-398).
The first component is the caller's dataframe after the call (the
function mutates it in place); the second the outcome. -/
def getTopExposedAssets (odf : Option DataFrame) (topN : Nat) :
    Option DataFrame × TopOutcome :=
  match odf with
  | none => (none, .noData)
  | some df =>
      if df.isEmpty then (some df, .noData)
      else if "exposure_score" ∉ df.colNames then (some df, .missingCol)
      else
        let df' := coerceDf df
        (some df', .ranked ((sortValuesDesc df'.rows).take topN))

/-- Result of `get_client` (`helper.py` lines 62-85): either the
process exits, or a `TenableIO` client is built from the two keys and
the fixed vendor/product strings. -/
inductive ClientResult where
  | exited (code : Nat)
  | client (accessKey secretKey vendor product : String)
deriving DecidableEq, Repr

/-- Python truthiness of an optional string (`os.getenv` result):
`None` and the empty string are falsy. -/
def truthy : Option String → Bool
  | none => false
  | some s => !s.isEmpty

/-- `get_client()` as a function of the two environment variables
`TENABLE_ACCESS_KEY` and `TENABLE_SECRET_KEY`. -/
def get_client (access secret : Option String) : ClientResult :=
  if !truthy access || !truthy secret then .exited 1
  else .client (access.getD "") (secret.getD "") "Custom Script" "TenableOne_Asset_Tool"

/-- One record streamed by `tio.exports.assets(...)`: the fields the
export loops read. `none` stands for a missing key or a `None`
value. -/
structure ApiAsset where
  id : Option String
  ipv4s : Option (List String)
  hostnames : Option (List String)
  operating_system : Option (List String)
  exposure_score : Option Int
  acr_score : Option Int
  tags : Option (List String)
deriving DecidableEq, Repr

/-- A flattened asset row as appended to `asset_data`. -/
structure FlatAsset where
  id : Option String
  ipv4 : String
  hostname : String
  os : String
  exposure_score : Int
  acr_score : Int
  tags : List String
deriving DecidableEq, Repr

/-- Python `asset.get(key) or []`: a missing key, `None` or an empty
list all give the empty list. -/
def orEmpty : Option (List String) → List String
  | none => []
  | some l => l

/-- The loop body of `export_assets_by_tag` (`helper.py` lines
150-166): first element of each list-valued field or a default. -/
def flattenAssetByTag (a : ApiAsset) : FlatAsset :=
  let ipv4s := orEmpty a.ipv4s
  let hostnames := orEmpty a.hostnames
  let os_list := orEmpty a.operating_system
  { id := a.id
    ipv4 := ipv4s.headD ""
    hostname := hostnames.headD ""
    os := os_list.headD "Unknown"
    exposure_score := a.exposure_score.getD 0
    acr_score := a.acr_score.getD 0
    tags := a.tags.getD [] }

/-- The loop body of `export_all_assets` (`helper.py` lines 211-226),
textually the same flattening as the tag-filtered export. -/
def flattenAssetAll (a : ApiAsset) : FlatAsset :=
  let ipv4s := orEmpty a.ipv4s
  let hostnames := orEmpty a.hostnames
  let os_list := orEmpty a.operating_system
  { id := a.id
    ipv4 := ipv4s.headD ""
    hostname := hostnames.headD ""
    os := os_list.headD "Unknown"
    exposure_score := a.exposure_score.getD 0
    acr_score := a.acr_score.getD 0
    tags := a.tags.getD [] }

/-- A value in the collapsed plugin-attribute dictionary: the single
value of a name seen once, or the list grown for a repeated name. -/
inductive AttrVal where
  | single (v : String)
  | multi (vs : List String)
deriving DecidableEq, Repr

/-- The attribute dictionary, an insertion-ordered association list
(Python dicts preserve insertion order). -/
abbrev AttrMap := List (String × AttrVal)

/-- One iteration of the collapsing loop in `get_plugin_info`
(`helper.py` lines 426-436) on the value already stored under a key:
a fresh key stores the bare value, a second occurrence starts a
two-element list, later occurrences append. -/
def attrStep : Option AttrVal → String → AttrVal
  | none, v => .single v
  | some (.single w), v => .multi [w, v]
  | some (.multi ws), v => .multi (ws ++ [v])

/-- Store value `v` under key `k`, updating the first matching entry
in place or appending a new one. -/
def attrInsert : AttrMap → String → String → AttrMap
  | [], k, v => [(k, .single v)]
  | (k', a) :: rest, k, v =>
      if k' = k then (k', attrStep (some a) v) :: rest
      else (k', a) :: attrInsert rest k v

/-- First value stored under key `k` (`attributes.get(k)`). -/
def attrLookup : AttrMap → String → Option AttrVal
  | [], _ => none
  | (k', a) :: rest, k => if k' = k then some a else attrLookup rest k

/-- The whole collapsing loop of `get_plugin_info`: fold the
`(attribute_name, attribute_value)` pairs into the dictionary. -/
def collapseAttributes (attrs : List (String × String)) : AttrMap :=
  attrs.foldl (fun m kv => attrInsert m kv.1 kv.2) []

/-- The `'CVE'` entry of `get_plugin_info`'s rendered output
(`helper.py` line 471): a list value passes through, a truthy
non-list value is wrapped in a one-element list, anything falsy
(missing key, empty string) gives the empty list. -/
def cveField (o : Option AttrVal) : List String :=
  match o with
  | some (.multi vs) => vs
  | some (.single v) => if v ≠ "" then [v] else []
  | none => []

/-- Decides whether `needle` begins `hay`, character by character. -/
def charsPre : List Char → List Char → Bool
  | [], _ => true
  | _ :: _, [] => false
  | a :: as, b :: bs => a == b && charsPre as bs

/-- Decides whether `needle` occurs contiguously inside `hay`. -/
def charsHas (needle : List Char) : List Char → Bool
  | [] => needle.isEmpty
  | c :: t => charsPre needle (c :: t) || charsHas needle t

/-- Python `needle in hay` on strings: contiguous substring test. -/
def substrOf (needle hay : String) : Bool :=
  charsHas needle.data hay.data

/-- Python `str.lower()` (ASCII range), character by character. -/
def pyLower (s : String) : String :=
  ⟨s.data.map Char.toLower⟩

/-- One row of the exported assets file as `search_assets` and
`get_asset_info` read it back; stored cells are modelled as the
strings they print as. -/
structure FileRow where
  id : String
  hostname : String
  ipv4 : String
  os : String
  exposure_score : String
  acr_score : String
  tags : List String
deriving DecidableEq, Repr

/-- One record of `tio.assets.list()`: every name-like field is
list-valued, scores are optional. -/
structure ListedAsset where
  id : Option String
  hostname : Option (List String)
  fqdn : Option (List String)
  netbios_name : Option (List String)
  ipv4 : Option (List String)
  ipv6 : Option (List String)
  operating_system : Option (List String)
  exposure_score : Option String
  acr_score : Option String
deriving DecidableEq, Repr

/-- A `match_info` record appended to `matches` by `search_assets`. -/
structure MatchRecord where
  id : Option String
  hostname : String
  ipv4 : String
  os : String
  exposure_score : String
  acr_score : String
deriving DecidableEq, Repr

/-- The `match_info` built from a file row (`helper.py` lines
524-531). -/
def fileMatchRecord (r : FileRow) : MatchRecord :=
  { id := some r.id
    hostname := r.hostname
    ipv4 := r.ipv4
    os := r.os
    exposure_score := r.exposure_score
    acr_score := r.acr_score }

/-- The `match_info` built from a listed asset in the API fallback
(`helper.py` lines 547-554). -/
def apiMatchRecord (a : ListedAsset) : MatchRecord :=
  { id := a.id
    hostname := (orEmpty a.hostname).headD "N/A"
    ipv4 := (orEmpty a.ipv4).headD "N/A"
    os := match a.operating_system with
          | some (x :: _) => x
          | _ => "Unknown"
    exposure_score := a.exposure_score.getD "N/A"
    acr_score := a.acr_score.getD "N/A" }

/-- The space-joined haystack `f"{hostname} {ipv4} {id}".lower()` a
file row is searched in (`helper.py` line 521). -/
def searchableOf (r : FileRow) : String :=
  pyLower (r.hostname ++ " " ++ r.ipv4 ++ " " ++ r.id)

/-- Match condition of the file branch of `search_assets`. -/
def fileCond (ql : String) (r : FileRow) : Bool :=
  substrOf ql (searchableOf r)

/-- Match condition of the API branch of `search_assets`: the query
occurs in some element of the concatenated hostname, fqdn,
netbios_name, ipv4 and ipv6 lists. -/
def apiCond (ql : String) (a : ListedAsset) : Bool :=
  (orEmpty a.hostname ++ orEmpty a.fqdn ++ orEmpty a.netbios_name ++
   orEmpty a.ipv4 ++ orEmpty a.ipv6).any (fun f => substrOf ql (pyLower f))

/-- `search_assets(tio, query, data_file)` (`helper.py` lines
495-576). `cacheFile` is the content of the data file, `none` when
loading raises `FileNotFoundError`; `apiAssets` is what
`tio.assets.list()` would yield. The returned value is the `matches`
list the function returns (printing truncates to 50, the return value
does not). -/
def searchAssets (cacheFile : Option (List FileRow))
    (apiAssets : List ListedAsset) (query : String) : List MatchRecord :=
  let ql := (pyLower query)
  match cacheFile with
  | some rows =>
      rows.foldl (fun acc r =>
        if fileCond ql r then acc ++ [fileMatchRecord r] else acc) []
  | none =>
      apiAssets.foldl (fun acc a =>
        if apiCond ql a then acc ++ [apiMatchRecord a] else acc) []

/-- Reading of claim C5 for a cached row: the query is a
case-insensitive substring of the hostname, of the IP, or of the id,
each taken individually. -/
def specFileMatch (query : String) (r : FileRow) : Bool :=
  let ql := (pyLower query)
  substrOf ql (pyLower r.hostname) || substrOf ql (pyLower r.ipv4) ||
    substrOf ql (pyLower r.id)

/-- Reading of claim C5 for a listed asset: the query is a
case-insensitive substring of a hostname element, of an IP element,
or of the asset id. -/
def specApiMatch (query : String) (a : ListedAsset) : Bool :=
  let ql := (pyLower query)
  (orEmpty a.hostname).any (fun f => substrOf ql (pyLower f)) ||
  (orEmpty a.ipv4).any (fun f => substrOf ql (pyLower f)) ||
  (match a.id with
   | some i => substrOf ql (pyLower i)
   | none => false)

/-- The object `tio.assets.details(uuid)` returns on success; claims
only need it carried through, so two representative fields. -/
structure AssetDetails where
  id : Option String
  name : Option String
deriving DecidableEq, Repr

/-- The degraded `friendly_output` built from file data when the
detail call fails (`helper.py` lines 344-356). -/
structure DegradedInfo where
  assetId : String
  hostname : String
  ipv4 : String
  os : String
  exposure_score : String
  acr_score : String
  tags : List String
  note : String
deriving DecidableEq, Repr

/-- The degraded output of `get_asset_info` from a cached row. -/
def degradedOf (r : FileRow) : DegradedInfo :=
  { assetId := r.id
    hostname := r.hostname
    ipv4 := r.ipv4
    os := r.os
    exposure_score := r.exposure_score
    acr_score := r.acr_score
    tags := r.tags
    note := "Limited data from file (API details unavailable)" }

/-- What `get_asset_info` ends with: `notFound` prints "Asset ... not
found" and returns `None`; `full` returns the raw details object;
`degraded` prints and returns the file-based output; `errorPrinted`
is the outer handler printing "Error retrieving asset info" and
returning `None`. -/
inductive AssetInfoResult where
  | notFound
  | full (details : AssetDetails)
  | degraded (info : DegradedInfo)
  | errorPrinted
deriving DecidableEq, Repr

/-- The file-resolution loop of `get_asset_info` (`helper.py` lines
274-281): first row whose lowercased hostname or ipv4 equals the
lowercased query hostname. -/
def findFileMatch (hostname : String) : List FileRow → Option FileRow
  | [] => none
  | r :: rs =>
      if (pyLower hostname) = (pyLower r.hostname) ∨ (pyLower hostname) = (pyLower r.ipv4)
      then some r else findFileMatch hostname rs

/-- The API-resolution loop of `get_asset_info` (`helper.py` lines
288-298): the id of the first listed asset one of whose hostname,
fqdn, netbios_name or ipv4 entries equals the query hostname
case-insensitively (the loop breaks there even when that id is
missing). -/
def apiFind (hostname : String) : List ListedAsset → Option String
  | [] => none
  | a :: rest =>
      let allNames := orEmpty a.hostname ++ orEmpty a.fqdn ++
        orEmpty a.netbios_name ++ orEmpty a.ipv4
      if allNames.any (fun h => (pyLower h) = (pyLower hostname)) then a.id
      else apiFind hostname rest

/-- `get_asset_info(tio, hostname, data_file)` (`helper.py` lines
250-362). `cache` is the data file's rows (`none` when loading raises
`FileNotFoundError`); `apiAssets` is `tio.assets.list()`; `details`
is the outcome of `tio.assets.details(asset_uuid)`, `none` when that
call raises. The uuid found in the file only counts as resolved when
truthy (a non-empty id), mirroring `if not asset_uuid`. -/
def getAssetInfo (cache : Option (List FileRow))
    (apiAssets : List ListedAsset) (details : Option AssetDetails)
    (hostname : String) : AssetInfoResult :=
  let fileHit : Option FileRow :=
    match cache with
    | some rows => findFileMatch hostname rows
    | none => none
  let uuidFromFile : String :=
    match fileHit with
    | some r => r.id
    | none => ""
  let resolved : Bool :=
    if uuidFromFile ≠ "" then true else truthy (apiFind hostname apiAssets)
  if ¬resolved then .notFound
  else
    match details with
    | some d => .full d
    | none =>
        match fileHit with
        | some r => .degraded (degradedOf r)
        | none => .errorPrinted

/-- CLI arguments of `main.py` after `argparse`: `store_true` flags,
optional string/int commands, and the parameter options with their
defaults supplied by `argparse`. -/
structure Args where
  list_scans : Bool
  export_assets : Bool
  export_all : Bool
  asset_info : Option String
  plugin_info : Option Int
  search_assets : Option String
  top_assets : Bool
  all : Bool
  to_csv : Bool
  to_json : Bool
  tag_category : String
  tag_value : String
  output : String
  input : String
  top : Nat
deriving DecidableEq, Repr

/-- Python truthiness of an optional string argument: `None` and the
empty string are falsy. -/
def optTruthyS : Option String → Bool
  | none => false
  | some s => !s.isEmpty

/-- Python truthiness of an optional int argument: `None` and `0` are
falsy. -/
def optTruthyI : Option Int → Bool
  | none => false
  | some n => n != 0

/-- `has_command` in `main` (`main.py` lines 166-177). -/
def hasCommand (a : Args) : Bool :=
  a.list_scans || a.export_assets || a.export_all ||
  optTruthyS a.asset_info || optTruthyI a.plugin_info ||
  optTruthyS a.search_assets || a.top_assets || a.all ||
  a.to_csv || a.to_json

/-- An operation `main` dispatches to. -/
inductive Action where
  | listScans
  | exportAll (out : String)
  | exportByTag (cat val out : String)
  | assetInfo (hostname : String)
  | pluginInfo (pid : Int)
  | searchFor (query : String)
  | topAssets (n : Nat)
  | toCsv
  | toJson
deriving DecidableEq, Repr

/-- `if args.list_scans or args.all:` (`main.py` line 201). -/
def scanStep (a : Args) : List Action :=
  if a.list_scans || a.all then [Action.listScans] else []

/-- The export dispatch (`main.py` lines 204-213): `--export-all`
first, `elif` the tag-filtered export. -/
def exportStep (a : Args) : List Action :=
  if a.export_all then [Action.exportAll a.output]
  else if a.export_assets || a.all then
    [Action.exportByTag a.tag_category a.tag_value a.output]
  else []

/-- `if args.asset_info:` (`main.py` line 215), with Python string
truthiness. -/
def assetInfoStep (a : Args) : List Action :=
  match a.asset_info with
  | some h => if h.isEmpty then [] else [Action.assetInfo h]
  | none => []

/-- `if args.plugin_info:` (`main.py` line 218), with Python int
truthiness. -/
def pluginStep (a : Args) : List Action :=
  match a.plugin_info with
  | some pid => if pid == 0 then [] else [Action.pluginInfo pid]
  | none => []

/-- `if args.search_assets:` (`main.py` line 221). -/
def searchStep (a : Args) : List Action :=
  match a.search_assets with
  | some q => if q.isEmpty then [] else [Action.searchFor q]
  | none => []

/-- The trailing conversion commands (`main.py` lines 237-241). -/
def convSteps (a : Args) : List Action :=
  (if a.to_csv then [Action.toCsv] else []) ++
  (if a.to_json then [Action.toJson] else [])

/-- The command dispatch of `main` (`main.py` lines 161-241) as the
ordered list of operations it runs. `dfAvailable` records whether the
export step above produced a dataframe, `fileExists` whether
`load_dataframe(args.input)` succeeds; when `--top-assets` must load
the file and cannot, the function returns early and the conversion
commands are skipped. -/
def mainActions (a : Args) (dfAvailable fileExists : Bool) : List Action :=
  if ¬hasCommand a then []
  else if a.top_assets || a.all then
    if ((a.export_all || a.export_assets || a.all) && dfAvailable) || fileExists then
      scanStep a ++ exportStep a ++ assetInfoStep a ++ pluginStep a ++
        searchStep a ++ [Action.topAssets a.top] ++ convSteps a
    else
      scanStep a ++ exportStep a ++ assetInfoStep a ++ pluginStep a ++ searchStep a
  else
    scanStep a ++ exportStep a ++ assetInfoStep a ++ pluginStep a ++
      searchStep a ++ convSteps a

/-- Folding `attrStep` over a list of values: the dictionary entry a
key ends with after its values are inserted one by one. -/
def attrCombine : Option AttrVal → List String → Option AttrVal
  | cur, [] => cur
  | cur, v :: vs => attrCombine (some (attrStep cur v)) vs

/-- A dataframe with a text exposure score and a numeric one, used to
instantiate the ranking theorems. -/
def sampleDf : DataFrame :=
  ⟨["hostname", "exposure_score"],
   [[("hostname", .str "web1"), ("exposure_score", .str "high")],
    [("hostname", .str "db1"), ("exposure_score", .num 200)]]⟩

/-- A nonempty dataframe without an exposure-score column. -/
def noScoreDf : DataFrame :=
  ⟨["hostname"], [[("hostname", .str "web1")]]⟩

/-- An export record whose list-valued fields are empty or missing. -/
def emptyListsAsset : ApiAsset :=
  { id := some "a-1", ipv4s := some [], hostnames := none,
    operating_system := some [], exposure_score := none,
    acr_score := none, tags := none }

/-- An export record with populated list-valued fields. -/
def fullAsset : ApiAsset :=
  { id := some "a-2", ipv4s := some ["10.0.0.1", "10.0.0.2"],
    hostnames := some ["web1"], operating_system := some ["Linux"],
    exposure_score := some 300, acr_score := some 5, tags := some [] }

/-- A cached row on which the query "t 1" matches only across the
space-joined hostname/ipv4/id haystack, not any single field. -/
def crossFieldRow : FileRow :=
  { id := "x1", hostname := "host", ipv4 := "1.2.3.4", os := "linux",
    exposure_score := "10", acr_score := "5", tags := [] }

/-- A listed asset identified only by its id. -/
def idOnlyAsset : ListedAsset :=
  { id := some "srv-42", hostname := none, fqdn := none,
    netbios_name := none, ipv4 := none, ipv6 := none,
    operating_system := none, exposure_score := none, acr_score := none }

/-- A listed asset resolvable by hostname via the API. -/
def apiOnlyAsset : ListedAsset :=
  { id := some "u-1", hostname := some ["web1"], fqdn := none,
    netbios_name := none, ipv4 := none, ipv6 := none,
    operating_system := none, exposure_score := none, acr_score := none }

/-- A cached row resolvable by hostname from the data file. -/
def cachedRow : FileRow :=
  { id := "u-9", hostname := "web1", ipv4 := "10.0.0.9", os := "Linux",
    exposure_score := "250", acr_score := "4", tags := ["Location:London"] }

/-- An invocation passing both `--export-all` and `--export-assets`
(and `--all`). -/
def bothExportArgs : Args :=
  { list_scans := false, export_assets := true, export_all := true,
    asset_info := none, plugin_info := none, search_assets := none,
    top_assets := false, all := true, to_csv := false, to_json := false,
    tag_category := "Location", tag_value := "London",
    output := "assets.parquet", input := "assets.parquet", top := 5 }

/-- C7: `get_client` reads the two credential environment variables;
when either is missing or empty it exits the process with status 1
without building a client, and when both are non-empty it returns a
client built from the two keys. -/
theorem C7_get_client (access secret : Option String) :
    ((truthy access = false ∨ truthy secret = false) →
      get_client access secret = .exited 1) ∧
    (∀ ak sk, access = some ak → secret = some sk → ak ≠ "" → sk ≠ "" →
      get_client access secret =
        .client ak sk "Custom Script" "TenableOne_Asset_Tool") := by
  constructor
  · intro h
    rcases h with h | h <;> simp [get_client, h]
  · intro ak sk ha hs hak hsk
    subst ha; subst hs
    simp [get_client, truthy, String.isEmpty_iff, hak, hsk]

/-- Witness for C7 at concrete environments. -/
theorem C7_get_client_witness :
    get_client none (some "k") = .exited 1 ∧
    get_client (some "a") (some "b") =
      .client "a" "b" "Custom Script" "TenableOne_Asset_Tool" :=
  ⟨(C7_get_client none (some "k")).1 (Or.inl rfl),
   (C7_get_client (some "a") (some "b")).2 "a" "b" rfl rfl
     (by decide) (by decide)⟩

/-- C3: in both asset exports, flattening takes the first element of
each list-valued field or a default: an empty or missing `ipv4s` list
gives the empty string, an empty or missing `hostnames` list gives the
empty string, and an empty or missing `operating_system` list gives
"Unknown". -/
theorem C3_flatten_defaults (a : ApiAsset) :
    ((a.ipv4s = none ∨ a.ipv4s = some []) →
      (flattenAssetByTag a).ipv4 = "" ∧ (flattenAssetAll a).ipv4 = "") ∧
    ((a.hostnames = none ∨ a.hostnames = some []) →
      (flattenAssetByTag a).hostname = "" ∧ (flattenAssetAll a).hostname = "") ∧
    ((a.operating_system = none ∨ a.operating_system = some []) →
      (flattenAssetByTag a).os = "Unknown" ∧ (flattenAssetAll a).os = "Unknown") ∧
    (∀ x xs, a.ipv4s = some (x :: xs) →
      (flattenAssetByTag a).ipv4 = x ∧ (flattenAssetAll a).ipv4 = x) ∧
    (∀ x xs, a.hostnames = some (x :: xs) →
      (flattenAssetByTag a).hostname = x ∧ (flattenAssetAll a).hostname = x) ∧
    (∀ x xs, a.operating_system = some (x :: xs) →
      (flattenAssetByTag a).os = x ∧ (flattenAssetAll a).os = x) := by
  refine ⟨?_, ?_, ?_, ?_, ?_, ?_⟩
  · rintro (h | h) <;> simp [flattenAssetByTag, flattenAssetAll, orEmpty, h]
  · rintro (h | h) <;> simp [flattenAssetByTag, flattenAssetAll, orEmpty, h]
  · rintro (h | h) <;> simp [flattenAssetByTag, flattenAssetAll, orEmpty, h]
  · intro x xs h; simp [flattenAssetByTag, flattenAssetAll, orEmpty, h]
  · intro x xs h; simp [flattenAssetByTag, flattenAssetAll, orEmpty, h]
  · intro x xs h; simp [flattenAssetByTag, flattenAssetAll, orEmpty, h]

/-- Witness for C3 at concrete export records. -/
theorem C3_flatten_defaults_witness :
    (flattenAssetByTag emptyListsAsset).ipv4 = "" ∧
    (flattenAssetAll emptyListsAsset).hostname = "" ∧
    (flattenAssetByTag emptyListsAsset).os = "Unknown" ∧
    (flattenAssetAll fullAsset).ipv4 = "10.0.0.1" :=
  ⟨((C3_flatten_defaults emptyListsAsset).1 (Or.inr rfl)).1,
   ((C3_flatten_defaults emptyListsAsset).2.1 (Or.inl rfl)).2,
   ((C3_flatten_defaults emptyListsAsset).2.2.1 (Or.inr rfl)).1,
   ((C3_flatten_defaults fullAsset).2.2.2.1 "10.0.0.1" ["10.0.0.2"] rfl).2⟩

/-- C2 counterexample: an empty dataframe that lacks the
`exposure_score` column takes the "No data available for analysis."
early return, not the missing-column warning the claim promises for
every such dataframe. -/
theorem C2_empty_frame_counterexample :
    (getTopExposedAssets (some ⟨["hostname"], []⟩) 5).2 = TopOutcome.noData ∧
    TopOutcome.noData ≠ TopOutcome.missingCol :=
  ⟨rfl, by decide⟩

/-- C2 as amended: `get_top_exposed_assets` coerces the score column
to numeric before ranking, with non-numeric values defaulted to zero;
a nonempty dataframe lacking the column gets the warning early return
(no ranking, no exception); an empty dataframe instead takes the
no-data early return. -/
theorem C2_coerce_and_warn (df : DataFrame) (n : Nat) :
    (df.isEmpty = false → "exposure_score" ∉ df.colNames →
      getTopExposedAssets (some df) n = (some df, .missingCol)) ∧
    ("exposure_score" ∈ df.colNames → df.isEmpty = false →
      getTopExposedAssets (some df) n =
        (some (coerceDf df),
         .ranked ((sortValuesDesc (coerceDf df).rows).take n))) ∧
    (∀ s, parseNumeric s = none → coerceValue (.str s) = .num 0) ∧
    coerceValue .null = .num 0 := by
  refine ⟨?_, ?_, ?_, rfl⟩
  · intro hemp hcol
    simp [getTopExposedAssets, hemp, hcol]
  · intro hcol hemp
    simp [getTopExposedAssets, hemp, hcol]
  · intro s h
    simp [coerceValue, coerceScore, h]

/-- Witness for C2 at concrete dataframes. -/
theorem C2_coerce_and_warn_witness :
    getTopExposedAssets (some noScoreDf) 5 = (some noScoreDf, .missingCol) ∧
    getTopExposedAssets (some sampleDf) 5 =
      (some (coerceDf sampleDf),
       .ranked ((sortValuesDesc (coerceDf sampleDf).rows).take 5)) ∧
    coerceValue (.str "high") = .num 0 :=
  ⟨(C2_coerce_and_warn noScoreDf 5).1 rfl (by decide),
   (C2_coerce_and_warn sampleDf 5).2.1 (by decide) rfl,
   (C2_coerce_and_warn sampleDf 5).2.2.1 "high" (by decide)⟩

/-- The column assignment coerces the cell stored under
`exposure_score` in each row. -/
theorem lookupVal_coerceRow_score (r : Row) :
    lookupVal (coerceRow r) "exposure_score" =
      Option.map coerceValue (lookupVal r "exposure_score") := by
  induction r with
  | nil => rfl
  | cons kv rest ih =>
      obtain ⟨k, v⟩ := kv
      simp only [coerceRow]
      by_cases h : k = "exposure_score"
      · rw [if_pos h]
        simp [lookupVal, h]
      · rw [if_neg h]
        simp [lookupVal, h, ih]

/-- The column assignment leaves every other cell of a row alone. -/
theorem lookupVal_coerceRow_other (r : Row) (c : String)
    (hc : c ≠ "exposure_score") :
    lookupVal (coerceRow r) c = lookupVal r c := by
  induction r with
  | nil => rfl
  | cons kv rest ih =>
      obtain ⟨k, v⟩ := kv
      simp only [coerceRow]
      by_cases h : k = "exposure_score"
      · rw [if_pos h]
        subst h
        simp [lookupVal, Ne.symm hc, ih]
      · rw [if_neg h]
        by_cases h2 : k = c <;> simp [lookupVal, h2, ih]

/-- C8: when the frame has an `exposure_score` column, the call
mutates the caller's dataframe in place: afterwards that column holds
the numeric-coerced cells and every other column is unchanged. -/
theorem C8_inplace_mutation (df : DataFrame) (n : Nat)
    (hcol : "exposure_score" ∈ df.colNames) :
    ∀ df', (getTopExposedAssets (some df) n).1 = some df' →
      colValues df' "exposure_score" =
        (colValues df "exposure_score").map (Option.map coerceValue) ∧
      ∀ c, c ≠ "exposure_score" → colValues df' c = colValues df c := by
  intro df' hdf'
  by_cases hemp : df.isEmpty
  · have hdf : df' = df := by
      simp [getTopExposedAssets, hemp] at hdf'
      exact hdf'.symm
    rw [hdf]
    have hrows : df.rows = [] := by
      have hnames : df.colNames ≠ [] := by
        intro h
        rw [h] at hcol
        exact (List.not_mem_nil _) hcol
      unfold DataFrame.isEmpty at hemp
      rcases Bool.or_eq_true_iff.mp hemp with h | h
      · exact List.isEmpty_iff.mp h
      · exact absurd (List.isEmpty_iff.mp h) hnames
    constructor
    · simp [colValues, hrows]
    · intro c _; rfl
  · have hdf : df' = coerceDf df := by
      simp [getTopExposedAssets, hemp, hcol] at hdf'
      exact hdf'.symm
    rw [hdf]
    constructor
    · simp only [colValues, coerceDf, List.map_map]
      exact List.map_congr_left fun r _ => lookupVal_coerceRow_score r
    · intro c hc
      simp only [colValues, coerceDf, List.map_map]
      exact List.map_congr_left fun r _ => lookupVal_coerceRow_other r c hc

/-- Witness for C8 at a concrete dataframe. -/
theorem C8_inplace_mutation_witness :
    colValues (coerceDf sampleDf) "exposure_score" =
      (colValues sampleDf "exposure_score").map (Option.map coerceValue) ∧
    ∀ c, c ≠ "exposure_score" →
      colValues (coerceDf sampleDf) c = colValues sampleDf c :=
  C8_inplace_mutation sampleDf 5 (by decide) (coerceDf sampleDf) rfl

/-- The scan step never dispatches a tag-filtered export. -/
theorem exportByTag_not_mem_scanStep (a : Args) (c v o : String) :
    Action.exportByTag c v o ∉ scanStep a := by
  unfold scanStep
  split <;> simp

/-- The asset-info step never dispatches a tag-filtered export. -/
theorem exportByTag_not_mem_assetInfoStep (a : Args) (c v o : String) :
    Action.exportByTag c v o ∉ assetInfoStep a := by
  cases ha : a.asset_info with
  | none => simp [assetInfoStep, ha]
  | some s =>
      simp only [assetInfoStep, ha]
      split <;> simp

/-- The plugin step never dispatches a tag-filtered export. -/
theorem exportByTag_not_mem_pluginStep (a : Args) (c v o : String) :
    Action.exportByTag c v o ∉ pluginStep a := by
  cases hp : a.plugin_info with
  | none => simp [pluginStep, hp]
  | some pid =>
      simp only [pluginStep, hp]
      split <;> simp

/-- The search step never dispatches a tag-filtered export. -/
theorem exportByTag_not_mem_searchStep (a : Args) (c v o : String) :
    Action.exportByTag c v o ∉ searchStep a := by
  cases hq : a.search_assets with
  | none => simp [searchStep, hq]
  | some q =>
      simp only [searchStep, hq]
      split <;> simp

/-- The conversion steps never dispatch a tag-filtered export. -/
theorem exportByTag_not_mem_convSteps (a : Args) (c v o : String) :
    Action.exportByTag c v o ∉ convSteps a := by
  unfold convSteps
  split_ifs <;> simp

/-- With `--export-all` set, the export dispatch runs exactly the
unfiltered export. -/
theorem exportStep_of_exportAll (a : Args) (h : a.export_all = true) :
    exportStep a = [Action.exportAll a.output] := by
  simp [exportStep, h]

/-- C9: `--export-all` takes precedence in the dispatcher: whenever it
is set, the tag-filtered export is never dispatched and the unfiltered
export is. -/
theorem C9_export_all_precedence (a : Args) (dfAvailable fileExists : Bool)
    (h : a.export_all = true) :
    (∀ c v o, Action.exportByTag c v o ∉ mainActions a dfAvailable fileExists) ∧
    Action.exportAll a.output ∈ mainActions a dfAvailable fileExists := by
  have hc : hasCommand a = true := by simp [hasCommand, h]
  have hexp := exportStep_of_exportAll a h
  constructor
  · intro c v o
    simp only [mainActions]
    split_ifs <;>
      simp [hexp, exportByTag_not_mem_scanStep, exportByTag_not_mem_assetInfoStep,
        exportByTag_not_mem_pluginStep, exportByTag_not_mem_searchStep,
        exportByTag_not_mem_convSteps]
  · simp only [mainActions]
    split_ifs with h1 <;>
      first
      | exact absurd hc h1
      | simp [hexp]

/-- Witness for C9 at a concrete invocation. -/
theorem C9_export_all_precedence_witness :
    (∀ c v o, Action.exportByTag c v o ∉ mainActions bothExportArgs true true) ∧
    Action.exportAll bothExportArgs.output ∈ mainActions bothExportArgs true true :=
  C9_export_all_precedence bothExportArgs true true rfl

/-- Looking a key up after one insertion: the matching key advances by
one `attrStep`, any other key is untouched. -/
theorem attrLookup_attrInsert (m : AttrMap) (k' k v : String) :
    attrLookup (attrInsert m k' v) k =
      if k' = k then some (attrStep (attrLookup m k) v) else attrLookup m k := by
  induction m with
  | nil => by_cases h : k' = k <;> simp [attrInsert, attrLookup, attrStep, h]
  | cons ka rest ih =>
      obtain ⟨k1, a⟩ := ka
      by_cases h1 : k1 = k'
      · subst h1
        by_cases h2 : k1 = k
        · subst h2
          simp [attrInsert, attrLookup]
        · simp [attrInsert, attrLookup, h2]
      · by_cases h2 : k1 = k
        · subst h2
          have h3 : ¬ k' = k1 := fun he => h1 he.symm
          simp [attrInsert, attrLookup, h1, h3]
        · simp [attrInsert, attrLookup, h1, h2, ih]

/-- Looking a key up after the whole collapsing fold: the entry the
key started with, advanced by one `attrStep` per occurrence of the key
in the attribute stream. -/
theorem attrLookup_foldInsert (attrs : List (String × String)) (m : AttrMap)
    (k : String) :
    attrLookup (attrs.foldl (fun m kv => attrInsert m kv.1 kv.2) m) k =
      attrCombine (attrLookup m k)
        ((attrs.filter (fun kv => kv.1 == k)).map Prod.snd) := by
  induction attrs generalizing m with
  | nil => rfl
  | cons kv rest ih =>
      obtain ⟨k1, v⟩ := kv
      by_cases h : k1 = k
      · subst h
        simp [List.filter_cons, ih, attrLookup_attrInsert, attrCombine]
      · simp [List.filter_cons, ih, attrLookup_attrInsert, h]

/-- Once an entry is a list, further values append in order. -/
theorem attrCombine_multi (vs : List String) (ws : List String) :
    attrCombine (some (.multi ws)) vs = some (.multi (ws ++ vs)) := by
  induction vs generalizing ws with
  | nil => simp [attrCombine]
  | cons v vs ih => simp [attrCombine, attrStep, ih]

/-- Folding a fresh key over its value list: one value stays single,
two or more become the list of all of them in order. -/
theorem attrCombine_none (vs : List String) :
    attrCombine none vs =
      match vs with
      | [] => none
      | [v] => some (.single v)
      | v₁ :: v₂ :: rest => some (.multi (v₁ :: v₂ :: rest)) := by
  match vs with
  | [] => rfl
  | [v] => rfl
  | v₁ :: v₂ :: rest =>
      show attrCombine (some (attrStep (some (attrStep none v₁)) v₂)) rest = _
      simp [attrStep, attrCombine_multi]

/-- C4: collapsing the plugin attribute array keeps the single value
of a name that appears exactly once and coalesces a repeated name into
the list of all of its values in order of appearance. -/
theorem C4_attribute_collapse (attrs : List (String × String)) (k : String) :
    attrLookup (collapseAttributes attrs) k =
      match (attrs.filter (fun kv => kv.1 == k)).map Prod.snd with
      | [] => none
      | [v] => some (.single v)
      | v₁ :: v₂ :: rest => some (.multi (v₁ :: v₂ :: rest)) := by
  have h := attrLookup_foldInsert attrs [] k
  rw [collapseAttributes, h]
  show attrCombine none _ = _
  rw [attrCombine_none]

/-- C10 counterexample: a plugin whose single `cve` attribute value is
the empty string renders `CVE` as the empty list, not as the
one-element list the claim promises for every single value. -/
theorem C10_cve_counterexample :
    cveField (attrLookup (collapseAttributes [("cve", "")]) "cve") = [] ∧
    ([] : List String) ≠ [""] :=
  ⟨rfl, by decide⟩

/-- C10 as amended: the rendered `CVE` field is always a list; a name
repeated in the attribute stream yields the list of all its values, a
single truthy (non-empty) value is wrapped into a one-element list,
and a missing `cve` attribute or a falsy (empty-string) single value
yields the empty list. -/
theorem C10_cve_list (attrs : List (String × String)) :
    (((attrs.filter (fun kv => kv.1 == "cve")).map Prod.snd) = [] →
      cveField (attrLookup (collapseAttributes attrs) "cve") = []) ∧
    (∀ v, ((attrs.filter (fun kv => kv.1 == "cve")).map Prod.snd) = [v] →
      v ≠ "" →
      cveField (attrLookup (collapseAttributes attrs) "cve") = [v]) ∧
    (((attrs.filter (fun kv => kv.1 == "cve")).map Prod.snd) = [""] →
      cveField (attrLookup (collapseAttributes attrs) "cve") = []) ∧
    (∀ v₁ v₂ rest,
      ((attrs.filter (fun kv => kv.1 == "cve")).map Prod.snd) = v₁ :: v₂ :: rest →
      cveField (attrLookup (collapseAttributes attrs) "cve") =
        v₁ :: v₂ :: rest) := by
  have h := attrLookup_foldInsert attrs [] "cve"
  rw [collapseAttributes]
  refine ⟨?_, ?_, ?_, ?_⟩
  · intro hv
    rw [h, hv]
    rfl
  · intro v hv hne
    rw [h, hv]
    simp [attrLookup, attrCombine, attrStep, cveField, hne]
  · intro hv
    rw [h, hv]
    simp [attrLookup, attrCombine, attrStep, cveField]
  · intro v₁ v₂ rest hv
    rw [h, hv]
    have hnil : attrLookup ([] : AttrMap) "cve" = none := rfl
    rw [hnil, attrCombine_none]
    rfl

/-- Witness for C10 at concrete attribute streams. -/
theorem C10_cve_list_witness :
    cveField (attrLookup (collapseAttributes [("risk_factor", "High")]) "cve") = [] ∧
    cveField (attrLookup (collapseAttributes [("cve", "CVE-2024-0001")]) "cve") =
      ["CVE-2024-0001"] ∧
    cveField (attrLookup
      (collapseAttributes [("cve", "CVE-2024-0001"), ("cve", "CVE-2024-0002")])
      "cve") = ["CVE-2024-0001", "CVE-2024-0002"] :=
  ⟨(C10_cve_list [("risk_factor", "High")]).1 (by decide),
   (C10_cve_list [("cve", "CVE-2024-0001")]).2.1 "CVE-2024-0001" (by decide)
     (by decide),
   (C10_cve_list [("cve", "CVE-2024-0001"), ("cve", "CVE-2024-0002")]).2.2.2
     "CVE-2024-0001" "CVE-2024-0002" [] (by decide)⟩

/-- Accumulating matches with conditional appends is filtering then
mapping. -/
theorem foldl_if_append {α β : Type} (p : α → Bool) (f : α → β)
    (l : List α) (init : List β) :
    l.foldl (fun acc x => if p x then acc ++ [f x] else acc) init =
      init ++ (l.filter p).map f := by
  induction l generalizing init with
  | nil => simp
  | cons x xs ih =>
      by_cases h : p x <;> simp [List.filter_cons, h, ih]

/-- C5 counterexample: on a cached row, the query "t 1" matches only
because the haystack joins hostname, IP and id with spaces, yet the
row is returned; and in the API fallback a query equal to the asset id
matches no searched field, so the asset is not returned although the
claim promises a match on the id. -/
theorem C5_search_counterexample :
    searchAssets (some [crossFieldRow]) [] "t 1" =
      [fileMatchRecord crossFieldRow] ∧
    specFileMatch "t 1" crossFieldRow = false ∧
    searchAssets none [idOnlyAsset] "srv-42" = [] ∧
    specApiMatch "srv-42" idOnlyAsset = true := by
  refine ⟨by decide, by decide, by decide, by decide⟩

/-- C5 as amended: with the data file present, `search_assets` returns
exactly the rows (in order, as match records) on which the lowercased
query occurs in the space-joined string "hostname ipv4 id" lowercased;
with the file absent it returns exactly the listed assets on which the
query occurs in some element of the hostname, fqdn, netbios_name,
ipv4 or ipv6 lists, lowercased. -/
theorem C5_search_semantics (cacheFile : Option (List FileRow))
    (apiAssets : List ListedAsset) (query : String) :
    (∀ rows, cacheFile = some rows →
      searchAssets cacheFile apiAssets query =
        (rows.filter (fileCond (pyLower query))).map fileMatchRecord) ∧
    (cacheFile = none →
      searchAssets cacheFile apiAssets query =
        (apiAssets.filter (apiCond (pyLower query))).map apiMatchRecord) := by
  constructor
  · rintro rows rfl
    simp [searchAssets, foldl_if_append]
  · rintro rfl
    simp [searchAssets, foldl_if_append]

/-- Witness for C5 at concrete inputs. -/
theorem C5_search_semantics_witness :
    searchAssets (some [crossFieldRow, cachedRow]) [] "web1" =
      (([crossFieldRow, cachedRow].filter (fileCond "web1")).map fileMatchRecord) ∧
    searchAssets none [idOnlyAsset, apiOnlyAsset] "web1" =
      (([idOnlyAsset, apiOnlyAsset].filter (apiCond "web1")).map apiMatchRecord) :=
  ⟨(C5_search_semantics (some [crossFieldRow, cachedRow]) [] "web1").1
     [crossFieldRow, cachedRow] rfl,
   (C5_search_semantics none [idOnlyAsset, apiOnlyAsset] "web1").2 rfl⟩

/-- C6 counterexample: the data file is absent, the hostname resolves
through the live API, and the detail call fails: `get_asset_info`
prints an error and returns `None` instead of producing a degraded
output. -/
theorem C6_degraded_counterexample :
    apiFind "web1" [apiOnlyAsset] = some "u-1" ∧
    getAssetInfo none [apiOnlyAsset] none "web1" = .errorPrinted := by
  refine ⟨by decide, by decide⟩

/-- C6 as amended: when the hostname was resolved from the cached data
file (a row with a truthy id), a failing detail call degrades the
output to the cached row's fields; when it was resolved only through
the live API, the failing detail call propagates and the function
prints an error and returns `None`. -/
theorem C6_degraded_fallback (rows : List FileRow)
    (apiAssets : List ListedAsset) (hostname : String) :
    (∀ r, findFileMatch hostname rows = some r → r.id ≠ "" →
      getAssetInfo (some rows) apiAssets none hostname =
        .degraded (degradedOf r)) ∧
    (truthy (apiFind hostname apiAssets) = true →
      getAssetInfo none apiAssets none hostname = .errorPrinted) := by
  constructor
  · intro r hfind hid
    simp [getAssetInfo, hfind, hid]
  · intro h
    simp [getAssetInfo, h]

/-- Witness for C6 at concrete inputs. -/
theorem C6_degraded_fallback_witness :
    getAssetInfo (some [cachedRow]) [] none "web1" =
      .degraded (degradedOf cachedRow) ∧
    getAssetInfo none [apiOnlyAsset] none "web1" = .errorPrinted :=
  ⟨(C6_degraded_fallback [cachedRow] [] "web1").1 cachedRow (by decide)
     (by decide),
   (C6_degraded_fallback [] [apiOnlyAsset] "web1").2 (by decide)⟩

end TenableToolkit
